import Mathlib

/-!
Shallow embedding of the playground-agentflow repository (policyflow /
policy_evaluator) and proofs of the specification claims.

Sources embedded:
  * src/src/policyflow/cache.py         (CacheManager)
  * src/src/policyflow/rate_limiter.py  (RateLimiter)
  * src/src/policyflow/nodes/llm_node.py (LLMNode.call_llm)
  * src/src/policyflow/config.py        (ConfidenceGateConfig)
  * src/src/policy_evaluator/nodes/subcriterion.py (SubCriterionNode.post)
  * src/src/policy_evaluator/nodes/criterion.py (CriterionEvaluationNode.post)

Wall-clock times and float quantities are modelled as rationals; the
filesystem backing the cache is modelled as a map from keys to file
contents; fallible OS writes are modelled by an explicit success flag.
-/

/-- The LLM response dictionaries this codebase produces and caches carry
the keys "met", "reasoning" and "confidence"; a key may be absent
(Python dict.get with a default).  Mirrors the dicts consumed by
SubCriterionNode.post / CriterionEvaluationNode.post. -/
structure ResponseDict where
  met : Option Bool
  reasoning : Option String
  confidence : Option Rat
deriving DecidableEq

/-- A Python-level result of the external `call_llm`: a dict (parsed YAML)
or a plain string (yaml_response=False or unparseable response). -/
inductive PyResult where
  | dict (d : ResponseDict)
  | str (s : String)
deriving DecidableEq

/-- Whether a PyResult is a dict (Python `isinstance(result, dict)`). -/
def PyResult.isDict : PyResult → Bool
  | .dict _ => true
  | .str _ => false

/-- Parsed contents of a cache file as seen by `yaml.safe_load`:
the "timestamp" and "result" keys may each be absent. -/
structure ParsedCacheData where
  timestamp : Option Rat
  result : Option ResponseDict
deriving DecidableEq

/-- Contents of one backing cache file, restricted to the shapes on
which CacheManager.get completes normally: `unreadable` covers the
YAMLError / OSError branch, `parsed none` a file whose safe_load result
is falsy (empty / null), `parsed (some pd)` a dict whose timestamp, when
present, is numeric.  The full shape set, including the malformed files
on which the source raises, is `PyCacheFile` below. -/
inductive CacheFileContent where
  | unreadable
  | parsed (data : Option ParsedCacheData)
deriving DecidableEq

/-- CacheManager state (src/src/policyflow/cache.py).  `files` is the
backing directory: key ↦ contents of `<key>.yaml`; `dirCreated` records
whether __init__ created the cache directory. -/
structure CacheManager where
  cache_dir : String
  ttl : Nat
  dirCreated : Bool
  files : String → Option CacheFileContent

/-- CacheManager.__init__: records dir and ttl, creates the backing
directory only when ttl > 0 (`if self._ttl > 0: self._cache_dir.mkdir`). -/
def CacheManager.init (cache_dir : String) (ttl : Nat) : CacheManager :=
  { cache_dir := cache_dir
    ttl := ttl
    dirCreated := ttl != 0
    files := fun _ => none }

/-- `cache_file.unlink(missing_ok=True)`: remove the backing file. -/
def CacheManager.unlink (c : CacheManager) (key : String) : CacheManager :=
  { c with files := fun k => if k = key then none else c.files k }

/-- CacheManager.get: returns the cached result or none; deletes the
backing file when the entry is expired, falsy, missing its timestamp, or
unreadable.  `now` is the value of `time.time()`. -/
def CacheManager.get (c : CacheManager) (now : Rat) (key : String) :
    Option ResponseDict × CacheManager :=
  if c.ttl = 0 then (none, c)
  else
    match c.files key with
    | none => (none, c)
    | some .unreadable => (none, c.unlink key)
    | some (.parsed none) => (none, c.unlink key)
    | some (.parsed (some pd)) =>
      match pd.timestamp with
      | none => (none, c.unlink key)
      | some ts =>
        if now - ts < (c.ttl : Rat) then (pd.result, c)
        else (none, c.unlink key)

/-- CacheManager.set: no-op when ttl = 0; otherwise writes
`{timestamp: now, result: value}` to the backing file.  `writeOk` models
the OSError branch: on a failed write the method fails silently and the
store is unchanged. -/
def CacheManager.set (c : CacheManager) (now : Rat) (key : String)
    (value : ResponseDict) (writeOk : Bool) : CacheManager :=
  if c.ttl = 0 then c
  else if writeOk then
    { c with files := fun k =>
        if k = key then some (.parsed (some ⟨some now, some value⟩))
        else c.files k }
  else c

/-- A YAML value found under the "timestamp" key: the numeric values the
cache itself writes, or a non-numeric scalar (e.g. a string) from a
hand-edited or corrupted file. -/
inductive PyTimestampValue where
  | num (ts : Rat)
  | str (s : String)
deriving DecidableEq

/-- Full model of one backing cache file as CacheManager.get consumes
it: `unreadable` (reading or parsing raises YAMLError / OSError, which
the except clause catches); `falsy` (safe_load returns None / "" / 0 /
[] / {}, so the truthiness check short-circuits); `truthyNonContainer`
(a bare truthy scalar such as the integer 42, on which
`"timestamp" in cached_data` raises TypeError — NOT caught by
`except (yaml.YAMLError, OSError, KeyError)`); `containerWithoutTimestamp`
(a truthy container whose membership test is False);
`dictWithTimestamp` (a dict carrying the key — a non-numeric value
makes the age subtraction raise an uncaught TypeError). -/
inductive PyCacheFile where
  | unreadable
  | falsy
  | truthyNonContainer
  | containerWithoutTimestamp
  | dictWithTimestamp (ts : PyTimestampValue) (result : Option ResponseDict)
deriving DecidableEq

/-- Removal of one backing file from a full-model store. -/
def eraseFile (files : String → Option PyCacheFile) (key : String) :
    String → Option PyCacheFile :=
  fun k => if k = key then none else files k

/-- CacheManager.get over the full file model.  An `.error` outcome is
an uncaught Python exception escaping get, with the file left in place;
`.ok` pairs the returned value with the store after any deletion.
Follows cache.py lines 43-78 branch for branch, including the two
TypeError paths that its `except (yaml.YAMLError, OSError, KeyError)`
does not catch. -/
def CacheManager.getFull (ttl : Nat)
    (files : String → Option PyCacheFile) (now : Rat) (key : String) :
    Except String (Option ResponseDict × (String → Option PyCacheFile)) :=
  if ttl = 0 then .ok (none, files)
  else
    match files key with
    | none => .ok (none, files)
    | some .unreadable => .ok (none, eraseFile files key)
    | some .falsy => .ok (none, eraseFile files key)
    | some .truthyNonContainer =>
      .error "TypeError: argument of type 'int' is not iterable"
    | some .containerWithoutTimestamp => .ok (none, eraseFile files key)
    | some (.dictWithTimestamp (.str _) _) =>
      .error "TypeError: unsupported operand type(s) for -: 'float' and 'str'"
    | some (.dictWithTimestamp (.num ts) result) =>
      if now - ts < (ttl : Rat) then .ok (result, files)
      else .ok (none, eraseFile files key)

/-- RateLimiter state (src/src/policyflow/rate_limiter.py): token bucket
with float token count and last-update timestamp; `rate_limit = none`
means unlimited. -/
structure RateLimiter where
  rate_limit : Option Nat
  tokens : Rat
  last_update : Rat
deriving DecidableEq

/-- RateLimiter.__init__ at wall-clock time `now`: a full bucket. -/
def RateLimiter.init (rate_limit : Option Nat) (now : Rat) : RateLimiter :=
  match rate_limit with
  | none => ⟨none, 0, 0⟩
  | some c => ⟨some c, (c : Rat), now⟩

/-- RateLimiter.wait_if_needed at wall-clock time `now`.  Returns the
slept duration and the updated limiter.  Unlimited: returns at once.
Otherwise: refill `time_passed * rate/60` capped at capacity; with ≥ 1
token, consume one and return with zero wait; else sleep
`(1 - tokens) / refill_rate`, after which tokens := 0 and
last_update := the post-sleep time. -/
def RateLimiter.wait_if_needed (rl : RateLimiter) (now : Rat) :
    Rat × RateLimiter :=
  match rl.rate_limit with
  | none => (0, rl)
  | some c =>
    let time_passed := now - rl.last_update
    let refill_rate := (c : Rat) / 60
    let tokens := min (c : Rat) (rl.tokens + time_passed * refill_rate)
    if 1 ≤ tokens then
      (0, { rl with tokens := tokens - 1, last_update := now })
    else
      let wait_time := (1 - tokens) / refill_rate
      (wait_time, { rl with tokens := 0, last_update := now + wait_time })

/-- State of the limiter after `n` calls to wait_if_needed, all issued at
the same instant `now` (a burst with no elapsed time). -/
def RateLimiter.callsAt (rl : RateLimiter) (now : Rat) : Nat → RateLimiter
  | 0 => rl
  | n + 1 => ((RateLimiter.callsAt rl now n).wait_if_needed now).2

/-- Wait incurred by the (n+1)-th call of a burst at instant `now`. -/
def RateLimiter.nthWait (rl : RateLimiter) (now : Rat) (n : Nat) : Rat :=
  ((RateLimiter.callsAt rl now n).wait_if_needed now).1

/-! SHA-256 (hashlib.sha256(...).hexdigest()) over byte lists, with
32-bit words as naturals reduced mod 2^32. -/

/-- UTF-8 encoding of one Unicode code point (`str.encode("utf-8")`). -/
def utf8Bytes (c : Nat) : List Nat :=
  if c < 0x80 then [c]
  else if c < 0x800 then [0xC0 + c / 64, 0x80 + c % 64]
  else if c < 0x10000 then
    [0xE0 + c / 4096, 0x80 + (c / 64) % 64, 0x80 + c % 64]
  else
    [0xF0 + c / 262144, 0x80 + (c / 4096) % 64, 0x80 + (c / 64) % 64,
      0x80 + c % 64]

/-- UTF-8 bytes of a string. -/
def strBytes (s : String) : List Nat :=
  s.data.flatMap (fun c => utf8Bytes c.toNat)

/-- Right rotation of a 32-bit word held in a Nat. -/
def rotr32 (w n : Nat) : Nat :=
  n / 2 ^ w + n % 2 ^ w * 2 ^ (32 - w)

/-- 32-bit XOR. -/
def xor32 (a b : Nat) : Nat := Nat.xor a b

/-- The eight working variables of the SHA-256 compression function. -/
structure Hash8 where
  a : Nat
  b : Nat
  c : Nat
  d : Nat
  e : Nat
  f : Nat
  g : Nat
  h : Nat

/-- SHA-256 initial hash value. -/
def sha256H0 : Hash8 :=
  ⟨1779033703, 3144134277, 1013904242, 2773480762,
   1359893119, 2600822924, 528734635, 1541459225⟩

/-- SHA-256 round constants. -/
def sha256K : List Nat :=
  [1116352408, 1899447441, 3049323471, 3921009573,
   961987163, 1508970993, 2453635748, 2870763221,
   3624381080, 310598401, 607225278, 1426881987,
   1925078388, 2162078206, 2614888103, 3248222580,
   3835390401, 4022224774, 264347078, 604807628,
   770255983, 1249150122, 1555081692, 1996064986,
   2554220882, 2821834349, 2952996808, 3210313671,
   3336571891, 3584528711, 113926993, 338241895,
   666307205, 773529912, 1294757372, 1396182291,
   1695183700, 1986661051, 2177026350, 2456956037,
   2730485921, 2820302411, 3259730800, 3345764771,
   3516065817, 3600352804, 4094571909, 275423344,
   430227734, 506948616, 659060556, 883997877,
   958139571, 1322822218, 1537002063, 1747873779,
   1955562222, 2024104815, 2227730452, 2361852424,
   2428436474, 2756734187, 3204031479, 3329325298]

/-- Message padding: append 0x80, zeros to 56 mod 64, then the bit length
as eight big-endian bytes. -/
def sha256Pad (msg : List Nat) : List Nat :=
  let len := msg.length
  let zeros := (119 - len % 64) % 64
  msg ++ [0x80] ++ List.replicate zeros 0 ++
    (List.range 8).map (fun i => 8 * len / 2 ^ (8 * (7 - i)) % 256)

/-- Big-endian 32-bit word from the first four entries of a byte list. -/
def word32At (bs : List Nat) : Nat :=
  bs.getD 0 0 * 2 ^ 24 + bs.getD 1 0 * 2 ^ 16 + bs.getD 2 0 * 2 ^ 8 +
    bs.getD 3 0

/-- The sixteen initial schedule words of one 64-byte block. -/
def blockWords (block : List Nat) : List Nat :=
  (List.range 16).map (fun i => word32At (block.drop (4 * i)))

/-- Small sigma 0. -/
def ssig0 (x : Nat) : Nat :=
  xor32 (xor32 (rotr32 7 x) (rotr32 18 x)) (x / 2 ^ 3)

/-- Small sigma 1. -/
def ssig1 (x : Nat) : Nat :=
  xor32 (xor32 (rotr32 17 x) (rotr32 19 x)) (x / 2 ^ 10)

/-- Extend sixteen schedule words to sixty-four. -/
def extendSchedule (ws : List Nat) : List Nat :=
  (List.range 48).foldl
    (fun acc _ =>
      let n := acc.length
      let w := (acc.getD (n - 16) 0 + ssig0 (acc.getD (n - 15) 0) +
        acc.getD (n - 7) 0 + ssig1 (acc.getD (n - 2) 0)) % 2 ^ 32
      acc ++ [w])
    ws

/-- Big sigma 0. -/
def bsig0 (x : Nat) : Nat :=
  xor32 (xor32 (rotr32 2 x) (rotr32 13 x)) (rotr32 22 x)

/-- Big sigma 1. -/
def bsig1 (x : Nat) : Nat :=
  xor32 (xor32 (rotr32 6 x) (rotr32 11 x)) (rotr32 25 x)

/-- Choose function. -/
def chf (e f g : Nat) : Nat :=
  xor32 (Nat.land e f) (Nat.land (xor32 e 0xffffffff) g)

/-- Majority function. -/
def majf (a b c : Nat) : Nat :=
  xor32 (xor32 (Nat.land a b) (Nat.land a c)) (Nat.land b c)

/-- One SHA-256 round for round constant `k` and schedule word `w`. -/
def sha256Round (st : Hash8) (kw : Nat × Nat) : Hash8 :=
  let t1 := (st.h + bsig1 st.e + chf st.e st.f st.g + kw.1 + kw.2) % 2 ^ 32
  let t2 := (bsig0 st.a + majf st.a st.b st.c) % 2 ^ 32
  ⟨(t1 + t2) % 2 ^ 32, st.a, st.b, st.c, (st.d + t1) % 2 ^ 32,
    st.e, st.f, st.g⟩

/-- Compress one 64-byte block into the running hash. -/
def sha256Compress (st : Hash8) (block : List Nat) : Hash8 :=
  let ws := extendSchedule (blockWords block)
  let r := (sha256K.zip ws).foldl sha256Round st
  ⟨(st.a + r.a) % 2 ^ 32, (st.b + r.b) % 2 ^ 32, (st.c + r.c) % 2 ^ 32,
   (st.d + r.d) % 2 ^ 32, (st.e + r.e) % 2 ^ 32, (st.f + r.f) % 2 ^ 32,
   (st.g + r.g) % 2 ^ 32, (st.h + r.h) % 2 ^ 32⟩

/-- SHA-256 of a byte list, as the eight final hash words. -/
def sha256Words (msg : List Nat) : Hash8 :=
  let padded := sha256Pad msg
  let blocks := (List.range (padded.length / 64)).map
    (fun i => (padded.drop (64 * i)).take 64)
  blocks.foldl sha256Compress sha256H0

/-- Lowercase hexadecimal digit. -/
def hexDigit (n : Nat) : Char :=
  if n < 10 then Char.ofNat (48 + n) else Char.ofNat (87 + n)

/-- Exactly eight lowercase hex characters of a 32-bit word. -/
def hex8 (n : Nat) : List Char :=
  (List.range 8).map (fun i => hexDigit (n / 16 ^ (7 - i) % 16))

/-- `hashlib.sha256(msg).hexdigest()`: 64 lowercase hex characters. -/
def sha256Hex (msg : List Nat) : String :=
  let w := sha256Words msg
  String.mk (hex8 w.a ++ hex8 w.b ++ hex8 w.c ++ hex8 w.d ++ hex8 w.e ++
    hex8 w.f ++ hex8 w.g ++ hex8 w.h)

/-- CacheManager.generate_key: SHA-256 hex digest of the UTF-8 encoded
prompt. -/
def CacheManager.generate_key (prompt : String) : String :=
  sha256Hex (strBytes prompt)

/-! LLMNode.call_llm (src/src/policyflow/nodes/llm_node.py). -/

/-- Observable actions of one call_llm invocation, in order. -/
inductive CallEvent where
  | rateWait
  | llmCall
  | cacheStore
deriving DecidableEq

/-- The cache key computed by LLMNode.call_llm:
`generate_key(f"{system_prompt or ''}\n{prompt}")`. -/
def LLMNode.cacheKeyFor (prompt : String) (system_prompt : Option String) :
    String :=
  CacheManager.generate_key ((system_prompt.getD "") ++ "\n" ++ prompt)

/-- LLMNode.call_llm at wall-clock time `now`.  `external` is the value
the external `_call_llm` would return; `writeOk` is whether the cache
write would succeed at the OS level.  Returns the result handed to the
caller, the cache and rate limiter after the call, and the trace of
events (rate-limit wait, external call, cache store) in order.
The key is generate_key over `f"{system_prompt or ''}\n{prompt}"`; on a
cache hit the cached dict is returned at once; on a miss the limiter is
consulted, the external call is made, and the result is cached only when
yaml_response is true and the result is a dict. -/
def LLMNode.call_llm (cache : CacheManager) (rl : RateLimiter) (now : Rat)
    (prompt : String) (system_prompt : Option String)
    (yaml_response : Bool) (external : PyResult) (writeOk : Bool) :
    PyResult × CacheManager × RateLimiter × List CallEvent :=
  let cache_key := LLMNode.cacheKeyFor prompt system_prompt
  let gr := cache.get now cache_key
  match gr.1 with
  | some cached_result => (.dict cached_result, gr.2, rl, [])
  | none =>
    let wr := rl.wait_if_needed now
    match external, yaml_response with
    | .dict d, true =>
      (.dict d, gr.2.set (now + wr.1) cache_key d writeOk, wr.2,
        [.rateWait, .llmCall, .cacheStore])
    | result, _ =>
      (result, gr.2, wr.2, [.rateWait, .llmCall])

/-! ConfidenceGateConfig (src/src/policyflow/config.py). -/

/-- A successfully validated confidence-gate configuration. -/
structure ConfidenceGateConfig where
  high : Rat
  low : Rat
deriving DecidableEq

/-- Pydantic construction of ConfidenceGateConfig: field constraints
`ge=0, le=1` on each threshold, then the model validator
`validate_threshold_order`, which raises when high < low. -/
def ConfidenceGateConfig.construct (high low : Rat) :
    Except String ConfidenceGateConfig :=
  if ¬(0 ≤ high ∧ high ≤ 1) then
    .error "high must be in [0, 1]"
  else if ¬(0 ≤ low ∧ low ≤ 1) then
    .error "low must be in [0, 1]"
  else if high < low then
    .error "high_threshold must be >= low_threshold"
  else
    .ok ⟨high, low⟩

/-- Whether construction succeeded. -/
def ConfidenceGateConfig.constructOk (high low : Rat) : Bool :=
  match ConfidenceGateConfig.construct high low with
  | .ok _ => true
  | .error _ => false

/-! Evaluation nodes (src/src/policy_evaluator/nodes). -/

/-- LogicOperator (src/src/policy_evaluator/models.py). -/
inductive LogicOperator where
  | all
  | any
deriving DecidableEq

/-- SubCriterionResult model (met/reasoning/confidence are typed and
required, filled by post from the exec dict with defaults). -/
structure SubCriterionResult where
  sub_criterion_id : String
  sub_criterion_name : String
  met : Bool
  reasoning : String
  confidence : Rat
deriving DecidableEq

/-- CriterionResult model. -/
structure CriterionResult where
  criterion_id : String
  criterion_name : String
  met : Bool
  reasoning : String
  confidence : Rat
deriving DecidableEq

/-- The parts of the PocketFlow shared store the two post methods write:
shared["sub_criterion_results"][parent_id][sub_id] and
shared["criterion_results"][criterion_id]. -/
structure SharedStore where
  sub_criterion_results : String → String → Option SubCriterionResult
  criterion_results : String → Option CriterionResult

/-- SubCriterionNode.post: pydantic constructs the SubCriterionResult
first — its confidence field is declared `Field(ge=0.0, le=1.0)`
(models.py), so an out-of-range confidence raises ValidationError
before anything is stored or any label returned — then commits the
result (defaulting absent fields to met=False, reasoning="",
confidence=0.0) and picks the next action from sub_logic: "satisfied"
for ANY with met, "failed" for ALL without met, "default" otherwise. -/
def SubCriterionNode.post (parent_id sub_id sub_name : String)
    (sub_logic : LogicOperator) (shared : SharedStore)
    (exec_res : ResponseDict) : Except String (SharedStore × String) :=
  if 0 ≤ exec_res.confidence.getD 0 ∧ exec_res.confidence.getD 0 ≤ 1 then
    let result : SubCriterionResult :=
      ⟨sub_id, sub_name, exec_res.met.getD false, exec_res.reasoning.getD "",
        exec_res.confidence.getD 0⟩
    let shared' := { shared with
      sub_criterion_results := fun p s =>
        if p = parent_id ∧ s = sub_id then some result
        else shared.sub_criterion_results p s }
    if sub_logic = LogicOperator.any ∧ result.met then
      .ok (shared', "satisfied")
    else if sub_logic = LogicOperator.all ∧ ¬result.met then
      .ok (shared', "failed")
    else .ok (shared', "default")
  else .error "ValidationError: confidence must be in [0, 1]"

/-- CriterionEvaluationNode.post: the same pydantic confidence bound on
CriterionResult (models.py), then commit the result (same defaults) and
return "default". -/
def CriterionEvaluationNode.post (criterion_id criterion_name : String)
    (shared : SharedStore) (exec_res : ResponseDict) :
    Except String (SharedStore × String) :=
  if 0 ≤ exec_res.confidence.getD 0 ∧ exec_res.confidence.getD 0 ≤ 1 then
    let result : CriterionResult :=
      ⟨criterion_id, criterion_name, exec_res.met.getD false,
        exec_res.reasoning.getD "", exec_res.confidence.getD 0⟩
    let shared' := { shared with
      criterion_results := fun c =>
        if c = criterion_id then some result
        else shared.criterion_results c }
    .ok (shared', "default")
  else .error "ValidationError: confidence must be in [0, 1]"

/-- The shared store committed by a post outcome, when it succeeded. -/
def postStore : Except String (SharedStore × String) → Option SharedStore
  | .ok p => some p.1
  | .error _ => none

/-- The action label returned by a post outcome, when it succeeded. -/
def postLabel : Except String (SharedStore × String) → Option String
  | .ok p => some p.2
  | .error _ => none

/-! Concrete fixtures used by the witness and counterexample
theorems. -/

/-- A concrete response dict. -/
def dictA : ResponseDict := ⟨some true, some "ok", some 1⟩

/-- Another concrete response dict. -/
def dictB : ResponseDict := ⟨some false, some "no", some (1 / 2)⟩

/-- A concrete rate limiter with capacity 3, initialised at time 0. -/
def rlA : RateLimiter := RateLimiter.init (some 3) 0

/-- A cache whose backing store holds a fresh entry (written at time 2)
under the key call_llm computes for prompt "p" with no system prompt. -/
def hitCache : CacheManager :=
  { cache_dir := ".cache", ttl := 3600, dirCreated := true,
    files := fun k =>
      if k = LLMNode.cacheKeyFor "p" none then
        some (.parsed (some ⟨some 2, some dictA⟩))
      else none }

/-- A cache whose backing store holds a fresh entry (written at time 7)
under the key call_llm computes for prompt "q" with system prompt "s". -/
def keyCache : CacheManager :=
  { cache_dir := ".cache", ttl := 60, dirCreated := true,
    files := fun k =>
      if k = LLMNode.cacheKeyFor "q" (some "s") then
        some (.parsed (some ⟨some 7, some dictB⟩))
      else none }

/-- A cache holding only an entry written at time 0 with TTL 1, expired
at time 5, under the key call_llm computes for prompt "p". -/
def staleCache : CacheManager :=
  { cache_dir := ".cache", ttl := 1, dirCreated := true,
    files := fun k =>
      if k = LLMNode.cacheKeyFor "p" none then
        some (.parsed (some ⟨some 0, some dictA⟩))
      else none }

/-- An enabled cache whose backing store is empty. -/
def emptyCache : CacheManager := CacheManager.init ".cache" 3600

/-- A full-model store holding, under key "k", a backing file whose
YAML content is a bare truthy scalar (e.g. the integer 42). -/
def malformedScalarFiles : String → Option PyCacheFile :=
  fun k => if k = "k" then some .truthyNonContainer else none

/-- A full-model store holding, under key "k", a dict entry whose
"timestamp" value is the string "noon". -/
def malformedTimestampFiles : String → Option PyCacheFile :=
  fun k =>
    if k = "k" then some (.dictWithTimestamp (.str "noon") (some dictA))
    else none

/-- A full-model store holding, under key "k", a file that raises at
read or parse time (the caught YAMLError / OSError shape). -/
def unreadableFiles : String → Option PyCacheFile :=
  fun k => if k = "k" then some .unreadable else none

/-! Helper lemmas shared by the claim proofs. -/

/-- A cache hit leaves the cache unchanged. -/
theorem CacheManager.get_hit (c : CacheManager) (now : Rat) (key : String)
    (v : ResponseDict) (h : (c.get now key).1 = some v) :
    c.get now key = (some v, c) := by
  by_cases h0 : c.ttl = 0
  · simp [CacheManager.get, h0] at h
  · rcases hf : c.files key with _ | (_ | (_ | pd))
    · simp [CacheManager.get, h0, hf] at h
    · simp [CacheManager.get, h0, hf] at h
    · simp [CacheManager.get, h0, hf] at h
    · rcases hts : pd.timestamp with _ | ts
      · simp [CacheManager.get, h0, hf, hts] at h
      · by_cases hage : now - ts < (c.ttl : Rat)
        · simp only [CacheManager.get, h0, hf, hts, hage, if_false,
            if_true, reduceIte] at h ⊢
          simp_all
        · simp [CacheManager.get, h0, hf, hts, hage] at h

/-- CacheManager.get touches at most the queried key's backing file. -/
theorem CacheManager.get_frame (c : CacheManager) (now : Rat)
    (key k : String) (hk : k ≠ key) :
    ((c.get now key).2).files k = c.files k := by
  by_cases h0 : c.ttl = 0
  · simp [CacheManager.get, h0]
  · rcases hf : c.files key with _ | (_ | (_ | pd))
    · simp [CacheManager.get, h0, hf]
    · simp [CacheManager.get, h0, hf, CacheManager.unlink, hk]
    · simp [CacheManager.get, h0, hf, CacheManager.unlink, hk]
    · rcases hts : pd.timestamp with _ | ts
      · simp [CacheManager.get, h0, hf, hts, CacheManager.unlink, hk]
      · by_cases hage : now - ts < (c.ttl : Rat)
        · simp [CacheManager.get, h0, hf, hts, hage]
        · simp [CacheManager.get, h0, hf, hts, hage, CacheManager.unlink,
            hk]

/-- When the queried key has no backing file, get is a pure miss. -/
theorem CacheManager.get_missNoFile (c : CacheManager) (now : Rat)
    (key : String) (h : c.files key = none) :
    c.get now key = (none, c) := by
  unfold CacheManager.get
  split_ifs with h0
  · rfl
  · simp [h]

/-- C3: with TTL = 0 the cache is inert: get reports absent for every
key, set stores nothing for every key and value, and __init__ creates no
backing cache directory (and the store stays empty). -/
theorem claim_C3_ttl_zero_inert (c : CacheManager) (h : c.ttl = 0)
    (dir key : String) (now : Rat) (v : ResponseDict) (writeOk : Bool) :
    c.get now key = (none, c) ∧
    c.set now key v writeOk = c ∧
    (CacheManager.init dir 0).dirCreated = false ∧
    (CacheManager.init dir 0).files = fun _ => none := by
  refine ⟨?_, ?_, rfl, rfl⟩
  · simp [CacheManager.get, h]
  · simp [CacheManager.set, h]

/-- Witness for C3 at a concrete TTL-0 cache, key, time and value. -/
theorem claim_C3_ttl_zero_inert_witness :
    (CacheManager.init ".cache" 0).get 5 "k" =
      (none, CacheManager.init ".cache" 0) ∧
    (CacheManager.init ".cache" 0).set 5 "k" dictA true =
      CacheManager.init ".cache" 0 ∧
    (CacheManager.init ".cache" 0).dirCreated = false ∧
    (CacheManager.init ".cache" 0).files = fun _ => none :=
  claim_C3_ttl_zero_inert (CacheManager.init ".cache" 0) rfl ".cache" "k"
    5 dictA true

/-- C4: the claim (and the source's own "Corrupted cache, remove it"
handler) requires a corrupted entry to be reported absent and deleted,
but on a backing file parsing to a truthy non-container scalar, or to a
dict whose timestamp is non-numeric, get raises an uncaught TypeError --
`except (yaml.YAMLError, OSError, KeyError)` does not cover it -- so
nothing is returned and the file stays in place.  A parse-level
unreadable file, by contrast, shows the claimed absent-and-delete
behaviour. -/
theorem claim_C4_malformed_entry_raises :
    CacheManager.getFull 1 malformedScalarFiles 5 "k" =
      .error "TypeError: argument of type 'int' is not iterable" ∧
    CacheManager.getFull 1 malformedTimestampFiles 5 "k" =
      .error
        "TypeError: unsupported operand type(s) for -: 'float' and 'str'" ∧
    malformedScalarFiles "k" = some PyCacheFile.truthyNonContainer ∧
    malformedTimestampFiles "k" =
      some (.dictWithTimestamp (.str "noon") (some dictA)) ∧
    CacheManager.getFull 1 unreadableFiles 5 "k" =
      .ok (none, eraseFile unreadableFiles "k") := by
  refine ⟨?_, ?_, by simp [malformedScalarFiles],
    by simp [malformedTimestampFiles], ?_⟩ <;>
    simp [CacheManager.getFull, malformedScalarFiles,
      malformedTimestampFiles, unreadableFiles]

/-- C6: with TTL > 0, a set immediately followed by a get of the same
key at the same time returns the stored value (and, half a round trip
further, leaves the written store untouched). -/
theorem claim_C6_roundtrip (c : CacheManager) (h : 0 < c.ttl) (now : Rat)
    (key : String) (v : ResponseDict) :
    (c.set now key v true).get now key =
      (some v, c.set now key v true) := by
  have hne : c.ttl ≠ 0 := Nat.pos_iff_ne_zero.mp h
  have hfile : (c.set now key v true).files key =
      some (.parsed (some ⟨some now, some v⟩)) := by
    simp [CacheManager.set, hne]
  have hage : now - now < (((c.set now key v true).ttl : Nat) : Rat) := by
    have httl : (c.set now key v true).ttl = c.ttl := by
      simp [CacheManager.set, hne]
    rw [httl, sub_self]
    exact_mod_cast h
  simp [CacheManager.get, CacheManager.set, hne, hfile, hage, sub_self]

/-- Witness for C6 at a concrete cache, time, key and value. -/
theorem claim_C6_roundtrip_witness :
    (emptyCache.set 9 "k" dictB true).get 9 "k" =
      (some dictB, emptyCache.set 9 "k" dictB true) :=
  claim_C6_roundtrip emptyCache (by decide) 9 "k" dictB

/-- C2 counterexample: with operator ANY and an evaluation dict whose
met is true but whose confidence is 3/2, the SubCriterionResult
constructor raises ValidationError (confidence is bounded by
Field(ge=0.0, le=1.0)), so post returns no label at all -- refuting
"if the result has met = true then post returns satisfied" at this
input. -/
theorem claim_C2_counterexample :
    (⟨some true, some "r", some (3 / 2)⟩ : ResponseDict).met.getD false =
      true ∧
    SubCriterionNode.post "c1" "s1" "sub one" .any
        ⟨fun _ _ => none, fun _ => none⟩
        ⟨some true, some "r", some (3 / 2)⟩ =
      .error "ValidationError: confidence must be in [0, 1]" := by
  refine ⟨rfl, ?_⟩
  norm_num [SubCriterionNode.post]

/-- C2 amended: whenever the evaluation dict passes result-model
validation (its confidence, defaulting to 0.0, lies in [0, 1]),
SubCriterionNode.post returns "satisfied" for ANY with a met result,
"failed" for ALL with an unmet result, and "default" in every other
case. -/
theorem claim_C2_amended_subcriterion_routing (pid sid sname : String)
    (shared : SharedStore) (er : ResponseDict)
    (hc0 : 0 ≤ er.confidence.getD 0) (hc1 : er.confidence.getD 0 ≤ 1) :
    (er.met.getD false = true →
      postLabel (SubCriterionNode.post pid sid sname .any shared er) =
        some "satisfied") ∧
    (er.met.getD false = false →
      postLabel (SubCriterionNode.post pid sid sname .all shared er) =
        some "failed") ∧
    (er.met.getD false = false →
      postLabel (SubCriterionNode.post pid sid sname .any shared er) =
        some "default") ∧
    (er.met.getD false = true →
      postLabel (SubCriterionNode.post pid sid sname .all shared er) =
        some "default") := by
  refine ⟨?_, ?_, ?_, ?_⟩ <;> intro h <;>
    simp [SubCriterionNode.post, postLabel, hc0, hc1, h]

/-- Witness for C2 (amended) at concrete met and unmet results with
in-range confidences. -/
theorem claim_C2_amended_subcriterion_routing_witness :
    postLabel (SubCriterionNode.post "c1" "s1" "sub one" .any
      ⟨fun _ _ => none, fun _ => none⟩ dictA) = some "satisfied" ∧
    postLabel (SubCriterionNode.post "c1" "s1" "sub one" .all
      ⟨fun _ _ => none, fun _ => none⟩ dictB) = some "failed" ∧
    postLabel (SubCriterionNode.post "c1" "s1" "sub one" .any
      ⟨fun _ _ => none, fun _ => none⟩ dictB) = some "default" ∧
    postLabel (SubCriterionNode.post "c1" "s1" "sub one" .all
      ⟨fun _ _ => none, fun _ => none⟩ dictA) = some "default" :=
  ⟨(claim_C2_amended_subcriterion_routing "c1" "s1" "sub one" _ dictA
      (by norm_num [dictA]) (by norm_num [dictA])).1 rfl,
   (claim_C2_amended_subcriterion_routing "c1" "s1" "sub one" _ dictB
      (by norm_num [dictB]) (by norm_num [dictB])).2.1 rfl,
   (claim_C2_amended_subcriterion_routing "c1" "s1" "sub one" _ dictB
      (by norm_num [dictB]) (by norm_num [dictB])).2.2.1 rfl,
   (claim_C2_amended_subcriterion_routing "c1" "s1" "sub one" _ dictA
      (by norm_num [dictA]) (by norm_num [dictA])).2.2.2 rfl⟩

/-- C9 counterexample: an evaluation dict missing "met" (squarely in
the claim's scope) whose confidence is 7.5 makes both post methods
raise ValidationError -- the node fails instead of committing a
defaulted result, refuting "rather than failing the node". -/
theorem claim_C9_counterexample :
    (⟨none, none, some (15 / 2)⟩ : ResponseDict).met = none ∧
    SubCriterionNode.post "c1" "s1" "sub one" .all
        ⟨fun _ _ => none, fun _ => none⟩ ⟨none, none, some (15 / 2)⟩ =
      .error "ValidationError: confidence must be in [0, 1]" ∧
    CriterionEvaluationNode.post "c2" "crit two"
        ⟨fun _ _ => none, fun _ => none⟩ ⟨none, none, some (15 / 2)⟩ =
      .error "ValidationError: confidence must be in [0, 1]" := by
  refine ⟨rfl, ?_, ?_⟩ <;>
    norm_num [SubCriterionNode.post, CriterionEvaluationNode.post]

/-- C9 amended: whenever the evaluation dict passes result-model
validation (its confidence, defaulting to 0.0, lies in [0, 1]) -- which
is automatic when the confidence field is missing -- both post methods
commit a result whose met / reasoning / confidence fields come from the
exec dict with defaults False / "" / 0.0, so a missing field is
defaulted instead of failing the node. -/
theorem claim_C9_amended_missing_fields_defaulted (pid sid sname cid
    cname : String) (logic : LogicOperator) (sh1 sh2 : SharedStore)
    (er : ResponseDict)
    (hc0 : 0 ≤ er.confidence.getD 0) (hc1 : er.confidence.getD 0 ≤ 1) :
    ((postStore (SubCriterionNode.post pid sid sname logic sh1 er)).map
        (fun sh => sh.sub_criterion_results pid sid) =
      some (some ⟨sid, sname, er.met.getD false, er.reasoning.getD "",
        er.confidence.getD 0⟩)) ∧
    ((postStore (CriterionEvaluationNode.post cid cname sh2 er)).map
        (fun sh => sh.criterion_results cid) =
      some (some ⟨cid, cname, er.met.getD false, er.reasoning.getD "",
        er.confidence.getD 0⟩)) ∧
    (er.met = none → er.reasoning = none → er.confidence = none →
      (postStore (SubCriterionNode.post pid sid sname logic sh1 er)).map
          (fun sh => sh.sub_criterion_results pid sid) =
        some (some ⟨sid, sname, false, "", 0⟩) ∧
      (postStore (CriterionEvaluationNode.post cid cname sh2 er)).map
          (fun sh => sh.criterion_results cid) =
        some (some ⟨cid, cname, false, "", 0⟩)) := by
  refine ⟨?_, ?_, ?_⟩
  · unfold SubCriterionNode.post
    rw [if_pos ⟨hc0, hc1⟩]
    dsimp only
    split_ifs <;> simp [postStore]
  · simp [CriterionEvaluationNode.post, postStore, hc0, hc1]
  · intro h1 h2 h3
    constructor
    · unfold SubCriterionNode.post
      rw [if_pos ⟨hc0, hc1⟩]
      dsimp only
      split_ifs <;> simp [postStore, h1, h2, h3]
    · simp [CriterionEvaluationNode.post, postStore, hc0, hc1, h1, h2,
        h3]

/-- Witness for C9 (amended) at a concrete exec dict with all three
fields absent. -/
theorem claim_C9_amended_missing_fields_defaulted_witness :
    (postStore (SubCriterionNode.post "c1" "s1" "sub one" .all
        ⟨fun _ _ => none, fun _ => none⟩ ⟨none, none, none⟩)).map
      (fun sh => sh.sub_criterion_results "c1" "s1") =
        some (some ⟨"s1", "sub one", false, "", 0⟩) ∧
    (postStore (CriterionEvaluationNode.post "c2" "crit two"
        ⟨fun _ _ => none, fun _ => none⟩ ⟨none, none, none⟩)).map
      (fun sh => sh.criterion_results "c2") =
        some (some ⟨"c2", "crit two", false, "", 0⟩) :=
  (claim_C9_amended_missing_fields_defaulted "c1" "s1" "sub one" "c2"
    "crit two" .all ⟨fun _ _ => none, fun _ => none⟩
    ⟨fun _ _ => none, fun _ => none⟩ ⟨none, none, none⟩
    (by norm_num) (by norm_num)).2.2 rfl rfl rfl

/-- C7 counterexample: high = 3/2 is ≥ low = 1/2, yet construction
fails, because pydantic's field bound `le=1` rejects high before the
threshold-order validator runs.  So "construction succeeds whenever
high ≥ low" is false as stated. -/
theorem claim_C7_counterexample :
    (1 / 2 : Rat) ≤ 3 / 2 ∧
    ConfidenceGateConfig.constructOk (3 / 2) (1 / 2) = false := by
  constructor
  · norm_num
  · have hhigh : ¬((0 : Rat) ≤ 3 / 2 ∧ (3 / 2 : Rat) ≤ 1) := by norm_num
    simp [ConfidenceGateConfig.constructOk, ConfidenceGateConfig.construct,
      hhigh]

/-- C7 amended: construction fails whenever high < low; it succeeds
whenever 0 ≤ low ≤ high ≤ 1; and every successfully constructed
configuration satisfies high ≥ low. -/
theorem claim_C7_amended_threshold_order (high low : Rat) :
    (high < low → ConfidenceGateConfig.constructOk high low = false) ∧
    (0 ≤ low → low ≤ high → high ≤ 1 →
      ConfidenceGateConfig.constructOk high low = true) ∧
    (∀ cfg : ConfidenceGateConfig,
      ConfidenceGateConfig.construct high low = .ok cfg →
        cfg.low ≤ cfg.high) := by
  refine ⟨?_, ?_, ?_⟩
  · intro hlt
    unfold ConfidenceGateConfig.constructOk ConfidenceGateConfig.construct
    split_ifs <;> simp_all
  · intro h0 hlh hh1
    have h0h : (0 : Rat) ≤ high := le_trans h0 hlh
    have hl1 : low ≤ 1 := le_trans hlh hh1
    have hnlt : ¬high < low := not_lt.mpr hlh
    simp [ConfidenceGateConfig.constructOk, ConfidenceGateConfig.construct,
      h0h, hh1, h0, hl1, hnlt]
  · intro cfg hok
    unfold ConfidenceGateConfig.construct at hok
    split_ifs at hok with h1 h2 h3
    cases hok
    exact not_lt.mp h3

/-- Witness for C7 (amended) at high = 4/5, low = 1/2. -/
theorem claim_C7_amended_threshold_order_witness :
    ConfidenceGateConfig.constructOk (4 / 5) (1 / 2) = true ∧
    ((1 / 10 : Rat) < 1 / 2 ∧
      ConfidenceGateConfig.constructOk (1 / 10) (1 / 2) = false) :=
  ⟨(claim_C7_amended_threshold_order (4 / 5) (1 / 2)).2.1 (by norm_num)
      (by norm_num) (by norm_num),
   by norm_num,
   (claim_C7_amended_threshold_order (1 / 10) (1 / 2)).1 (by norm_num)⟩

/-- After k ≤ C burst calls at the initialisation instant, the bucket
holds C - k tokens and the last update is unchanged. -/
theorem RateLimiter.burst_state (C : Nat) (t0 : Rat) (k : Nat)
    (hk : k ≤ C) :
    RateLimiter.callsAt (RateLimiter.init (some C) t0) t0 k =
      ⟨some C, (C : Rat) - k, t0⟩ := by
  induction k with
  | zero => simp [RateLimiter.callsAt, RateLimiter.init]
  | succ n ih =>
    have hn : n ≤ C := Nat.le_of_succ_le hk
    have hlt : n < C := Nat.lt_of_succ_le hk
    rw [RateLimiter.callsAt, ih hn]
    have h1 : (1 : Rat) ≤ (C : Rat) - n := by
      have : ((n : Rat) + 1) ≤ (C : Rat) := by exact_mod_cast hk
      linarith
    have hcap : (C : Rat) - n + (t0 - t0) * ((C : Rat) / 60) ≤ (C : Rat) := by
      have h0n : (0 : Rat) ≤ (n : Rat) := Nat.cast_nonneg n
      have hz : (t0 - t0) * ((C : Rat) / 60) = 0 := by
        rw [sub_self, zero_mul]
      rw [hz, add_zero]
      linarith
    unfold RateLimiter.wait_if_needed
    simp only [min_eq_right hcap]
    rw [if_pos (by simpa [sub_self] using h1)]
    simp
    ring

/-- C5: an unlimited limiter returns immediately from every call; with
capacity C the first C burst calls consume one token each and wait 0;
the (C+1)-th call waits (1 − remaining tokens) / (C/60) = 60/C seconds;
and refill never raises the token count above the capacity. -/
theorem claim_C5_token_bucket (C : Nat) (hC : 1 ≤ C) (t0 : Rat) :
    (∀ rl : RateLimiter, rl.rate_limit = none →
      ∀ now, rl.wait_if_needed now = (0, rl)) ∧
    (∀ k, k < C →
      RateLimiter.nthWait (RateLimiter.init (some C) t0) t0 k = 0) ∧
    (RateLimiter.nthWait (RateLimiter.init (some C) t0) t0 C =
      (1 - 0) / ((C : Rat) / 60)) ∧
    (RateLimiter.nthWait (RateLimiter.init (some C) t0) t0 C =
      60 / (C : Rat)) ∧
    (∀ (rl : RateLimiter) (c : Nat) (now : Rat), rl.rate_limit = some c →
      ((rl.wait_if_needed now).2).tokens ≤ (c : Rat)) := by
  have hcast : (1 : Rat) ≤ (C : Rat) := by exact_mod_cast hC
  have hwaitC : RateLimiter.nthWait (RateLimiter.init (some C) t0) t0 C =
      (1 - 0) / ((C : Rat) / 60) := by
    unfold RateLimiter.nthWait
    rw [RateLimiter.burst_state C t0 C le_rfl]
    unfold RateLimiter.wait_if_needed
    dsimp only
    have hz : (C : Rat) - (C : Nat) + (t0 - t0) * ((C : Rat) / 60) = 0 := by
      ring
    rw [hz]
    have hmin : min (C : Rat) 0 = 0 := min_eq_right (Nat.cast_nonneg C)
    rw [hmin, if_neg (by norm_num)]
  refine ⟨?_, ?_, hwaitC, ?_, ?_⟩
  · intro rl h now
    simp [RateLimiter.wait_if_needed, h]
  · intro k hk
    unfold RateLimiter.nthWait
    rw [RateLimiter.burst_state C t0 k (le_of_lt hk)]
    unfold RateLimiter.wait_if_needed
    dsimp only
    have h1 : (1 : Rat) ≤ (C : Rat) - k := by
      have : ((k : Rat) + 1) ≤ (C : Rat) := by exact_mod_cast hk
      linarith
    have hz : (t0 - t0) * ((C : Rat) / 60) = 0 := by rw [sub_self, zero_mul]
    have hcap : (C : Rat) - k + (t0 - t0) * ((C : Rat) / 60) ≤ (C : Rat) := by
      have h0k : (0 : Rat) ≤ (k : Rat) := Nat.cast_nonneg k
      rw [hz, add_zero]
      linarith
    rw [min_eq_right hcap, if_pos (by rw [hz, add_zero]; exact h1)]
  · rw [hwaitC]
    rw [sub_zero, one_div_div]
  · intro rl c now h
    rcases rl with ⟨rla, tk, lu⟩
    simp only at h
    subst h
    unfold RateLimiter.wait_if_needed
    dsimp only
    split_ifs with htok
    · have hml := min_le_left (c : Rat)
        (tk + (now - lu) * ((c : Rat) / 60))
      dsimp only
      linarith
    · exact Nat.cast_nonneg c

/-- Witness for C5 with capacity 3 initialised at time 0: the first
burst call waits 0, the fourth waits 60/3 seconds, an unlimited limiter
returns unchanged, and refill caps tokens at the capacity. -/
theorem claim_C5_token_bucket_witness :
    RateLimiter.nthWait (RateLimiter.init (some 3) 0) 0 0 = 0 ∧
    RateLimiter.nthWait (RateLimiter.init (some 3) 0) 0 3 = 60 / (3 : Rat) ∧
    RateLimiter.wait_if_needed ⟨none, 0, 0⟩ 7 = (0, ⟨none, 0, 0⟩) ∧
    ((RateLimiter.wait_if_needed ⟨some 3, 3, 0⟩ 600).2).tokens ≤ (3 : Rat) :=
  ⟨(claim_C5_token_bucket 3 (by decide) 0).2.1 0 (by decide),
   (claim_C5_token_bucket 3 (by decide) 0).2.2.2.1,
   (claim_C5_token_bucket 3 (by decide) 0).1 ⟨none, 0, 0⟩ rfl 7,
   (claim_C5_token_bucket 3 (by decide) 0).2.2.2.2 ⟨some 3, 3, 0⟩ 3 600 rfl⟩

/-- C1: on a cache hit call_llm returns the cached dict and neither the
rate limiter nor the external LLM is invoked (cache and limiter are
unchanged, the event trace is empty); only on a miss does it wait on the
limiter, then call the LLM, and then store the result (the store step
occurring exactly when the result is a dict requested as YAML). -/
theorem claim_C1_cache_short_circuit (cache : CacheManager)
    (rl : RateLimiter) (now : Rat) (prompt : String)
    (sysp : Option String) (y : Bool) (ext : PyResult) (wok : Bool) :
    (∀ v, (cache.get now (LLMNode.cacheKeyFor prompt sysp)).1 = some v →
      LLMNode.call_llm cache rl now prompt sysp y ext wok =
        (.dict v, cache, rl, [])) ∧
    ((cache.get now (LLMNode.cacheKeyFor prompt sysp)).1 = none →
      ∀ d, ext = .dict d → y = true →
      LLMNode.call_llm cache rl now prompt sysp y ext wok =
        (.dict d,
         ((cache.get now (LLMNode.cacheKeyFor prompt sysp)).2).set
           (now + (rl.wait_if_needed now).1)
           (LLMNode.cacheKeyFor prompt sysp) d wok,
         (rl.wait_if_needed now).2,
         [.rateWait, .llmCall, .cacheStore])) ∧
    ((cache.get now (LLMNode.cacheKeyFor prompt sysp)).1 = none →
      (y = false ∨ ext.isDict = false) →
      LLMNode.call_llm cache rl now prompt sysp y ext wok =
        (ext, (cache.get now (LLMNode.cacheKeyFor prompt sysp)).2,
         (rl.wait_if_needed now).2, [.rateWait, .llmCall])) := by
  refine ⟨?_, ?_, ?_⟩
  · intro v h
    have h2 := CacheManager.get_hit _ _ _ _ h
    simp [LLMNode.call_llm, h2]
  · intro h d hd hy
    subst hd
    subst hy
    simp [LLMNode.call_llm, h]
  · intro h hcase
    rcases hcase with hy | hext
    · subst hy
      cases ext <;> simp [LLMNode.call_llm, h]
    · cases ext with
      | dict d => simp [PyResult.isDict] at hext
      | str s => cases y <;> simp [LLMNode.call_llm, h]

/-- Witness for C1: a concrete hit (no events), a concrete stored miss,
and a concrete non-dict miss. -/
theorem claim_C1_cache_short_circuit_witness :
    LLMNode.call_llm hitCache rlA 2 "p" none true (.str "x") true =
      (.dict dictA, hitCache, rlA, []) ∧
    LLMNode.call_llm emptyCache rlA 2 "p" none true (.dict dictB) true =
      (.dict dictB,
       ((emptyCache.get 2 (LLMNode.cacheKeyFor "p" none)).2).set
         (2 + (rlA.wait_if_needed 2).1) (LLMNode.cacheKeyFor "p" none)
         dictB true,
       (rlA.wait_if_needed 2).2, [.rateWait, .llmCall, .cacheStore]) ∧
    LLMNode.call_llm emptyCache rlA 2 "p" none true (.str "x") true =
      (.str "x", (emptyCache.get 2 (LLMNode.cacheKeyFor "p" none)).2,
       (rlA.wait_if_needed 2).2, [.rateWait, .llmCall]) :=
  ⟨(claim_C1_cache_short_circuit hitCache rlA 2 "p" none true (.str "x")
      true).1 dictA (by norm_num [hitCache, CacheManager.get]),
   (claim_C1_cache_short_circuit emptyCache rlA 2 "p" none true
      (.dict dictB) true).2.1
      (by simp [emptyCache, CacheManager.init, CacheManager.get]) dictB
      rfl rfl,
   (claim_C1_cache_short_circuit emptyCache rlA 2 "p" none true
      (.str "x") true).2.2
      (by simp [emptyCache, CacheManager.init, CacheManager.get])
      (Or.inr rfl)⟩

/-- C10 counterexample: a miss caused by an expired entry with a
non-dict external result.  The result is returned and no store event
occurs, yet the cache store is NOT left unchanged: the lookup deletes
the expired backing entry, so the claim's "the cache store is left
unchanged by that call" is false at this input. -/
theorem claim_C10_counterexample :
    staleCache.files (LLMNode.cacheKeyFor "p" none) ≠ none ∧
    (staleCache.get 5 (LLMNode.cacheKeyFor "p" none)).1 = none ∧
    (LLMNode.call_llm staleCache rlA 5 "p" none true (.str "x") true).1 =
      .str "x" ∧
    (LLMNode.call_llm staleCache rlA 5 "p" none true (.str "x") true).2.2.2 =
      [CallEvent.rateWait, CallEvent.llmCall] ∧
    ((LLMNode.call_llm staleCache rlA 5 "p" none true
        (.str "x") true).2.1).files (LLMNode.cacheKeyFor "p" none) =
      none := by
  have hget : staleCache.get 5 (LLMNode.cacheKeyFor "p" none) =
      (none, staleCache.unlink (LLMNode.cacheKeyFor "p" none)) := by
    norm_num [staleCache, CacheManager.get]
  refine ⟨by simp [staleCache], by rw [hget], ?_, ?_, ?_⟩ <;>
    simp [LLMNode.call_llm, hget, CacheManager.unlink]

/-- C10 amended: on a cache miss with a non-dict result or
yaml_response false, the result is returned to the caller and no cache
entry is written: the final store is exactly the store left by the
lookup, which differs from the initial store at most by the deletion of
the expired/corrupted entry under the request's key; when that key had
no backing file the store is fully unchanged. -/
theorem claim_C10_amended_no_write_on_non_dict (cache : CacheManager)
    (rl : RateLimiter) (now : Rat) (prompt : String)
    (sysp : Option String) (y : Bool) (ext : PyResult) (wok : Bool)
    (h : (cache.get now (LLMNode.cacheKeyFor prompt sysp)).1 = none)
    (hnd : y = false ∨ ext.isDict = false) :
    (LLMNode.call_llm cache rl now prompt sysp y ext wok =
      (ext, (cache.get now (LLMNode.cacheKeyFor prompt sysp)).2,
       (rl.wait_if_needed now).2, [.rateWait, .llmCall])) ∧
    (∀ k, k ≠ LLMNode.cacheKeyFor prompt sysp →
      ((cache.get now (LLMNode.cacheKeyFor prompt sysp)).2).files k =
        cache.files k) ∧
    (cache.files (LLMNode.cacheKeyFor prompt sysp) = none →
      LLMNode.call_llm cache rl now prompt sysp y ext wok =
        (ext, cache, (rl.wait_if_needed now).2,
          [.rateWait, .llmCall])) := by
  have main : LLMNode.call_llm cache rl now prompt sysp y ext wok =
      (ext, (cache.get now (LLMNode.cacheKeyFor prompt sysp)).2,
       (rl.wait_if_needed now).2, [.rateWait, .llmCall]) := by
    rcases hnd with hy | hext
    · subst hy
      cases ext <;> simp [LLMNode.call_llm, h]
    · cases ext with
      | dict d => simp [PyResult.isDict] at hext
      | str s => cases y <;> simp [LLMNode.call_llm, h]
  refine ⟨main, ?_, ?_⟩
  · intro k hk
    exact CacheManager.get_frame cache now _ k hk
  · intro hnof
    rw [main, CacheManager.get_missNoFile cache now _ hnof]

/-- Witness for C10 (amended): a pure miss on an empty store with
yaml_response false leaves the store untouched. -/
theorem claim_C10_amended_no_write_on_non_dict_witness :
    LLMNode.call_llm emptyCache rlA 3 "p" none false (.str "y") true =
      (.str "y", emptyCache, (rlA.wait_if_needed 3).2,
        [.rateWait, .llmCall]) :=
  (claim_C10_amended_no_write_on_non_dict emptyCache rlA 3 "p" none false
    (.str "y") true
    (by simp [emptyCache, CacheManager.init, CacheManager.get])
    (Or.inl rfl)).2.2 rfl

/-- C8: the cache key call_llm uses is generate_key applied to the
concatenation of the system prompt (empty when absent), a newline and
the prompt; generate_key is a pure deterministic function whose output
is a 256-bit digest (64 hex characters) for every input; and call_llm
consults exactly that key: a fresh entry stored under it is returned as
the cached result. -/
theorem claim_C8_deterministic_hash_key :
    (∀ (prompt : String) (sysp : Option String),
      LLMNode.cacheKeyFor prompt sysp =
        CacheManager.generate_key ((sysp.getD "") ++ "\n" ++ prompt)) ∧
    (∀ s : String, (CacheManager.generate_key s).length = 64) ∧
    (∀ p q : String, p = q →
      CacheManager.generate_key p = CacheManager.generate_key q) ∧
    (∀ (cache : CacheManager) (rl : RateLimiter) (now : Rat)
       (prompt : String) (sysp : Option String) (y : Bool)
       (ext : PyResult) (wok : Bool) (v : ResponseDict),
      cache.ttl ≠ 0 →
      cache.files
          (CacheManager.generate_key ((sysp.getD "") ++ "\n" ++ prompt)) =
        some (.parsed (some ⟨some now, some v⟩)) →
      LLMNode.call_llm cache rl now prompt sysp y ext wok =
        (.dict v, cache, rl, [])) := by
  refine ⟨fun _ _ => rfl, ?_, fun p q h => h ▸ rfl, ?_⟩
  · intro s
    simp [CacheManager.generate_key, sha256Hex, hex8, String.length]
  · intro cache rl now prompt sysp y ext wok v h0 hf
    have hpos : (0 : Rat) < (cache.ttl : Rat) := by
      exact_mod_cast Nat.pos_of_ne_zero h0
    have hget : cache.get now (LLMNode.cacheKeyFor prompt sysp) =
        (some v, cache) := by
      have hf2 : cache.files (LLMNode.cacheKeyFor prompt sysp) =
          some (.parsed (some ⟨some now, some v⟩)) := hf
      simp [CacheManager.get, h0, hf2, sub_self, hpos]
    simp [LLMNode.call_llm, hget]

/-- Witness for C8: determinism at a concrete string, and a concrete
cache holding an entry under the key for prompt "q" with system prompt
"s" that call_llm finds without calling out. -/
theorem claim_C8_deterministic_hash_key_witness :
    CacheManager.generate_key "a" = CacheManager.generate_key "a" ∧
    LLMNode.call_llm keyCache rlA 7 "q" (some "s") true (.str "x") true =
      (.dict dictB, keyCache, rlA, []) :=
  ⟨(claim_C8_deterministic_hash_key).2.2.1 "a" "a" rfl,
   (claim_C8_deterministic_hash_key).2.2.2 keyCache rlA 7 "q" (some "s")
     true (.str "x") true dictB (by decide)
     (by simp [keyCache, LLMNode.cacheKeyFor])⟩
